import Mathlib

/-!
Shallow embedding of `scottopell/consolidator` (Rust), files
`src/processor.rs` and `src/bin/consolidator.rs`, for checking the
natural-language specification against the code.

The symphonia decode layer is modelled abstractly: a media source carries the
outcome of probing, the probed format carries the default track and the
sequence of `next_packet` results, and each packet carries the outcome that
`decoder.decode` produces for it in this run.  The pure functions below mirror
the control flow of `get_sample_buf`, `process_impl` and `process` line by
line, including the `unwrap` panics and the `panic!` calls, and record the
observable effects (log lines, file opens, file writes) of `process` as a
trace.
-/

namespace Consolidator

/-- Signal specification of a decoded audio buffer: sample rate and channel
count (symphonia `SignalSpec`; channel layout abstracted to its count). -/
structure AudioSpec where
  rate : Nat
  channels : Nat
deriving DecidableEq, Repr

/-- A decoded audio buffer as produced by `decoder.decode` (symphonia
`AudioBufferRef`): its spec, its reported capacity (a frame-count hint), the
number of frames it holds, and its channel-planar sample data.  Samples are
abstracted to `Int` (no arithmetic is ever performed on them; they are only
copied). -/
structure AudioBuf where
  spec : AudioSpec
  capacity : Nat
  frames : Nat
  planes : List (List Int)
deriving DecidableEq, Repr

/-- Interleave `nChannels` channel planes over `nFrames` frames:
frame 0 channel 0, frame 0 channel 1, ..., frame 1 channel 0, ...
(the copy order of symphonia `SampleBuffer.copy_interleaved_typed`). -/
def interleave (nFrames nChannels : Nat) (planes : List (List Int)) : List Int :=
  (List.range nFrames).flatMap
    (fun i => (List.range nChannels).map (fun c => (planes.getD c []).getD i 0))

/-- The interleaved samples of an audio buffer, using its own frame count and
its own spec's channel count, exactly as `copy_interleaved_typed` reads it. -/
def AudioBuf.interleaved (b : AudioBuf) : List Int :=
  interleave b.frames b.spec.channels b.planes

/-- symphonia `SampleBuffer<f32>`: fixed capacity (in samples), the spec given
at creation, and the currently written samples (`n_written` prefix of the
backing store). -/
structure SampleBuffer where
  capacity : Nat
  spec : AudioSpec
  samples : List Int
deriving DecidableEq, Repr

/-- `SampleBuffer::new(duration, spec)`: capacity is
`duration * spec.channels.count()`, nothing written yet. -/
def SampleBuffer.new (duration : Nat) (spec : AudioSpec) : SampleBuffer :=
  { capacity := duration * spec.channels, spec := spec, samples := [] }

/-- `SampleBuffer::copy_interleaved_ref`: asserts that the capacity can hold
`src.frames() * src.spec.channels.count()` samples (`none` models the
assertion panic), then OVERWRITES the written region with the interleaved
samples of `src` (`n_written` is set, not added to). -/
def SampleBuffer.copy_interleaved_ref (b : SampleBuffer) (src : AudioBuf) :
    Option SampleBuffer :=
  if src.frames * src.spec.channels ≤ b.capacity then
    some { b with samples := src.interleaved }
  else
    none

instance {ε α : Type} [DecidableEq ε] [DecidableEq α] : DecidableEq (Except ε α)
  | .ok a, .ok b => decidable_of_iff (a = b) (by simp)
  | .error a, .error b => decidable_of_iff (a = b) (by simp)
  | .ok _, .error _ => isFalse (fun h => Except.noConfusion h)
  | .error _, .ok _ => isFalse (fun h => Except.noConfusion h)

/-- symphonia's error type, abstracted to its variants relevant here.  The
code pattern-matches only on `ResetRequired`; all other variants flow through
the generic error arms. -/
inductive SymError
  | ResetRequired
  | IoError
  | DecodeError
  | Unsupported
  | LimitError
deriving DecidableEq, Repr

/-- A container packet: its track id, together with the outcome that
`decoder.decode` yields for it in this run (the decoder is external; the
outcome it would produce for this packet is part of the modelled input). -/
structure Packet where
  track_id : Nat
  decode : Except SymError AudioBuf
deriving DecidableEq, Repr

/-- A track of the probed container: its id and the outcome of
`get_codecs().make(&track.codec_params, ..)` for it. -/
structure Track where
  id : Nat
  make_decoder : Except SymError Unit
deriving DecidableEq, Repr

/-- The format reader yielded by probing: the default track (if any) and the
sequence of `format.next_packet()` results this run will observe. -/
structure FormatReader where
  default_track : Option Track
  packets : List (Except SymError Packet)
deriving DecidableEq, Repr

/-- An opened media source: the outcome of
`get_probe().format(&hint, mss, ..)` on it. -/
structure MediaSource where
  probe : Except SymError FormatReader
deriving DecidableEq, Repr

/-- Result of running `get_sample_buf`: normal return, error return, a panic
(with the panic message), or the modelled packet-event list being exhausted
before the loop exits (an unfinished run prefix; never reachable from the
event lists used in the theorems below). -/
inductive GsbOutcome
  | ok (buf : SampleBuffer)
  | err (e : SymError)
  | panicked (msg : String)
  | ranOut
deriving DecidableEq, Repr

/-- The `loop` of `get_sample_buf` (processor.rs lines 58-121), one modelled
`next_packet` event at a time.  State: the selected `track_id`, the
`sample_buf : Option SampleBuffer`, and the telemetry `sample_count`. -/
def gsbLoop (track_id : Nat) (sample_buf : Option SampleBuffer)
    (sample_count : Nat) : List (Except SymError Packet) → GsbOutcome
  | [] => .ranOut
  | ev :: rest =>
    match ev with
    | .error SymError.ResetRequired =>
      match sample_buf with
      | some b => .ok b
      | none => .panicked "Got reset-required, but no sample buf yet"
    | .error e => .err e
    | .ok packet =>
      if packet.track_id ≠ track_id then
        gsbLoop track_id sample_buf sample_count rest
      else
        match packet.decode with
        | .ok audio_buf =>
          match sample_buf with
          | none =>
            match (SampleBuffer.new audio_buf.capacity
                audio_buf.spec).copy_interleaved_ref audio_buf with
            | some b =>
              gsbLoop track_id (some b) (sample_count + b.samples.length) rest
            | none => .panicked "assertion failed: self.capacity() >= n_samples"
          | some b0 =>
            match b0.copy_interleaved_ref audio_buf with
            | some b =>
              gsbLoop track_id (some b) (sample_count + b.samples.length) rest
            | none => .panicked "assertion failed: self.capacity() >= n_samples"
        | .error SymError.ResetRequired =>
          .panicked "Reset Error Encountered, something should be done but idk what"
        | .error e => .err e

/-- `get_sample_buf` (processor.rs lines 22-122): probe (`unwrap`), select the
default track (`unwrap`), build the decoder (`unwrap`), then run the packet
loop. -/
def get_sample_buf (file : MediaSource) : GsbOutcome :=
  match file.probe with
  | .error _ => .panicked "called unwrap on probe result"
  | .ok format =>
    match format.default_track with
    | none => .panicked "called unwrap on default_track"
    | some track =>
      match track.make_decoder with
      | .error _ => .panicked "called unwrap on decoder make"
      | .ok _ => gsbLoop track.id none 0 format.packets

/-- A `std::io::Error`, abstracted to an error code. -/
structure IoError where
  code : Nat
deriving DecidableEq, Repr

/-- `std::fs::FileType`, abstracted to the single query the code makes. -/
structure FileType where
  is_file : Bool
deriving DecidableEq, Repr

/-- A directory entry as the code queries it: its path, the outcome of
`entry.file_type()`, and the outcome of `File::open(entry.path())` (with the
modelled media source behind a successful open). -/
structure DirEntry where
  path : String
  file_type : Except IoError FileType
  open_file : Except IoError MediaSource
deriving DecidableEq, Repr

/-- A directory as `process` consumes it: its path and the outcome of
`std::fs::read_dir` (on success, the iterator's sequence of
`io::Result<DirEntry>` items). -/
structure Dir where
  path : String
  read_dir : Except IoError (List (Except IoError DirEntry))
deriving DecidableEq, Repr

/-- An observable effect of `process`: a log record, a file open, or a file
write.  `process` as written performs no `writeFile` — the constructor exists
so that absence is expressible. -/
inductive Effect
  | logInfo (msg : String)
  | logWarn (msg : String)
  | openFile (path : String)
  | writeFile (path : String)
deriving DecidableEq, Repr

/-- Result of `process`: normal return, an `Error::Io` return, a propagated
panic, or an exhausted modelled event list; each carries the effect trace
produced up to that point. -/
inductive ProcOutcome
  | ok (trace : List Effect)
  | ioErr (e : IoError) (trace : List Effect)
  | panicked (msg : String) (trace : List Effect)
  | ranOut (trace : List Effect)
deriving DecidableEq, Repr

/-- The effect trace of a `process` outcome. -/
def ProcOutcome.trace : ProcOutcome → List Effect
  | .ok t => t
  | .ioErr _ t => t
  | .panicked _ t => t
  | .ranOut t => t

/-- The `for res in entries` loop of `process` (processor.rs lines 137-157),
with `process_impl` (lines 162-168) inlined at its single call site:
an `Err` entry aborts via `let entry = res?`; an errored `file_type()` query
silently skips the entry; a regular file is opened (`File::open(..)?` aborts
on failure) and decoded, success is logged `info`, a decode error is logged
`warn` and the loop continues. -/
def processEntries (trace : List Effect) :
    List (Except IoError DirEntry) → ProcOutcome
  | [] => .ok trace
  | res :: rest =>
    match res with
    | .error e => .ioErr e trace
    | .ok entry =>
      match entry.file_type with
      | .error _ => processEntries trace rest
      | .ok ft =>
        if ft.is_file then
          let trace1 := trace ++
            [.logInfo ("Found Regular file: " ++ entry.path),
             .openFile entry.path]
          match entry.open_file with
          | .error e => .ioErr e trace1
          | .ok f =>
            match get_sample_buf f with
            | .ok buf =>
              processEntries (trace1 ++
                [.logInfo ("Got sample buffer with " ++
                    toString buf.samples.length ++ " samples"),
                 .logInfo ("Successfully processed file: " ++ entry.path)]) rest
            | .err _ =>
              processEntries (trace1 ++
                [.logWarn ("Could not process file: " ++ entry.path ++
                    " due to audio error")]) rest
            | .panicked msg => .panicked msg trace1
            | .ranOut => .ranOut trace1
        else
          processEntries trace rest

/-- `process` (processor.rs lines 133-160): log the path, list the directory
(an `Err` from `read_dir` itself is returned as `Error::Io`), then run the
entry loop. -/
def process (p : Dir) : ProcOutcome :=
  let trace := [Effect.logInfo ("Processing path: " ++ p.path)]
  match p.read_dir with
  | .error e => .ioErr e trace
  | .ok entries => processEntries trace entries

/-- A track whose decoder construction succeeds. -/
def okTrack (tid : Nat) : Track :=
  { id := tid, make_decoder := .ok () }

/-- Packet events of a run that decodes `bufs` in order on track `tid` and
then receives `ResetRequired` from `next_packet` (how the modelled container
signals end-of-stream). -/
def mkPackets (tid : Nat) (bufs : List AudioBuf) : List (Except SymError Packet) :=
  bufs.map (fun b => .ok { track_id := tid, decode := .ok b }) ++
    [.error SymError.ResetRequired]

/-- A media source that probes successfully, has default track `tid` with a
working decoder, and yields the packet events of `mkPackets tid bufs`. -/
def mkSource (tid : Nat) (bufs : List AudioBuf) : MediaSource :=
  { probe := .ok { default_track := some (okTrack tid), packets := mkPackets tid bufs } }

/-- The effect of one successful in-track decoded frame on the sample buffer:
`copy_interleaved_ref` keeps capacity and spec and overwrites the written
samples. -/
def copyStep (s : SampleBuffer) (b : AudioBuf) : SampleBuffer :=
  { s with samples := b.interleaved }

/-- `true` exactly on `logWarn` effects. -/
def Effect.isWarn : Effect → Bool
  | .logWarn _ => true
  | _ => false

/-- The paths of all `writeFile` effects in a trace. -/
def writesOf (t : List Effect) : List String :=
  t.filterMap (fun e =>
    match e with
    | .writeFile p => some p
    | _ => none)

/-- A directory entry is benign when it is an `Ok` item and, if its file-type
query succeeds and reports a regular file, opening it succeeds and decoding it
returns normally (either a sample buffer or a symphonia error). -/
def fileBenign (entry : DirEntry) : Prop :=
  ∀ ft, entry.file_type = .ok ft → ft.is_file = true →
    ∃ f, entry.open_file = .ok f ∧
      ((∃ buf, get_sample_buf f = .ok buf) ∨ (∃ e, get_sample_buf f = .err e))

/-- Benignity of one item of the `read_dir` iterator. -/
def entryBenign (res : Except IoError DirEntry) : Prop :=
  ∃ entry, res = .ok entry ∧ fileBenign entry

/-- Mono 44.1 kHz signal spec. -/
def specMono : AudioSpec := { rate := 44100, channels := 1 }

/-- Stereo 44.1 kHz signal spec. -/
def specStereo : AudioSpec := { rate := 44100, channels := 2 }

/-- First mono test frame: samples 1, 2. -/
def bufA : AudioBuf := { spec := specMono, capacity := 4, frames := 2, planes := [[1, 2]] }

/-- Second mono test frame: samples 3, 4. -/
def bufB : AudioBuf := { spec := specMono, capacity := 4, frames := 2, planes := [[3, 4]] }

/-- A stereo test frame: left plane 1, 2 and right plane 5, 6. -/
def bufStereo : AudioBuf :=
  { spec := specStereo, capacity := 4, frames := 2, planes := [[1, 2], [5, 6]] }

/-- A mono frame of a different spec (22.05 kHz), three samples 7, 8, 9. -/
def bufMono3 : AudioBuf :=
  { spec := { rate := 22050, channels := 1 }, capacity := 4, frames := 3, planes := [[7, 8, 9]] }

/-- A fully decodable source: one mono frame, then end-of-stream. -/
def goodSource : MediaSource := mkSource 0 [bufA]

/-- A source whose first in-track packet fails to decode with a generic
decode error. -/
def decodeErrSource : MediaSource :=
  { probe := .ok
      { default_track := some (okTrack 0),
        packets := [.ok ({ track_id := 0, decode := .error SymError.DecodeError } : Packet)] } }

/-- A source that signals `ResetRequired` before any frame was decoded. -/
def emptyResetSource : MediaSource := mkSource 0 []

/-- A source for which probing finds no supported container format. -/
def probeErrSource : MediaSource := { probe := .error SymError.Unsupported }

/-- A source that probes but whose container has no default track. -/
def noTrackSource : MediaSource :=
  { probe := .ok { default_track := none, packets := [] } }

/-- A source whose default track has no matching decoder. -/
def noCodecSource : MediaSource :=
  { probe := .ok
      { default_track := some ({ id := 0, make_decoder := .error SymError.Unsupported } : Track),
        packets := [] } }

/-- A regular-file entry whose `File::open` fails with error code 13. -/
def entryOpenErr : DirEntry :=
  { path := "a.mp3", file_type := .ok { is_file := true },
    open_file := .error { code := 13 } }

/-- A regular-file entry that opens and decodes successfully. -/
def entryGood : DirEntry :=
  { path := "b.mp3", file_type := .ok { is_file := true }, open_file := .ok goodSource }

/-- A regular-file entry whose decode fails with a decode error. -/
def entryDecodeErr : DirEntry :=
  { path := "c.mp3", file_type := .ok { is_file := true },
    open_file := .ok decodeErrSource }

/-- A regular-file entry whose stream resets before any frame. -/
def entryReset : DirEntry :=
  { path := "r.mp3", file_type := .ok { is_file := true },
    open_file := .ok emptyResetSource }

/-- A regular-file entry whose content matches no supported format. -/
def entryProbeErr : DirEntry :=
  { path := "p.mp3", file_type := .ok { is_file := true },
    open_file := .ok probeErrSource }

/-- Directory with an open-failing file followed by a good file. -/
def dirOpenErr : Dir :=
  { path := "d", read_dir := .ok [.ok entryOpenErr, .ok entryGood] }

/-- Directory with a single decode-failing file. -/
def dirDecodeErr : Dir :=
  { path := "d", read_dir := .ok [.ok entryDecodeErr] }

/-- Directory with a zero-frame-reset file followed by a good file. -/
def dirReset : Dir :=
  { path := "d", read_dir := .ok [.ok entryReset, .ok entryGood] }

/-- Directory with an unprobeable file followed by a good file. -/
def dirProbeErr : Dir :=
  { path := "d", read_dir := .ok [.ok entryProbeErr, .ok entryGood] }

/-- An entry whose `file_type()` query itself errors. -/
def entryFtErr : DirEntry :=
  { path := "x.mp3", file_type := .error { code := 5 }, open_file := .error { code := 5 } }

end Consolidator

namespace Consolidator

theorem copy_interleaved_ref_of_fits (s : SampleBuffer) (b : AudioBuf)
    (h : b.frames * b.spec.channels ≤ s.capacity) :
    s.copy_interleaved_ref b = some (copyStep s b) := by
  simp [SampleBuffer.copy_interleaved_ref, copyStep, h]

theorem copy_interleaved_ref_nofit (s : SampleBuffer) (b : AudioBuf)
    (h : ¬ b.frames * b.spec.channels ≤ s.capacity) :
    s.copy_interleaved_ref b = none := by
  simp [SampleBuffer.copy_interleaved_ref, h]

theorem copyStep_capacity (s : SampleBuffer) (b : AudioBuf) :
    (copyStep s b).capacity = s.capacity := rfl

theorem copyStep_spec (s : SampleBuffer) (b : AudioBuf) :
    (copyStep s b).spec = s.spec := rfl

theorem foldl_copyStep_capacity (bufs : List AudioBuf) (s : SampleBuffer) :
    (bufs.foldl copyStep s).capacity = s.capacity := by
  induction bufs generalizing s with
  | nil => rfl
  | cons b rest ih => simpa using ih (copyStep s b)

theorem foldl_copyStep_spec (bufs : List AudioBuf) (s : SampleBuffer) :
    (bufs.foldl copyStep s).spec = s.spec := by
  induction bufs generalizing s with
  | nil => rfl
  | cons b rest ih => simpa using ih (copyStep s b)

theorem foldl_copyStep_samples (bufs : List AudioBuf) (s : SampleBuffer) :
    (bufs.foldl copyStep s).samples =
      ((bufs.getLast?).map AudioBuf.interleaved).getD s.samples := by
  induction bufs generalizing s with
  | nil => rfl
  | cons b rest ih =>
    rw [List.foldl_cons, ih (copyStep s b)]
    cases rest with
    | nil => rfl
    | cons c cs =>
      rw [List.getLast?_cons_cons]
      cases h : (c :: cs).getLast? with
      | none => simp at h
      | some x => rfl

theorem gsbLoop_reset_some (tid : Nat) (s : SampleBuffer) (sc : Nat)
    (rest : List (Except SymError Packet)) :
    gsbLoop tid (some s) sc (.error SymError.ResetRequired :: rest) = .ok s := rfl

theorem gsbLoop_reset_none (tid sc : Nat) (rest : List (Except SymError Packet)) :
    gsbLoop tid none sc (.error SymError.ResetRequired :: rest) =
      .panicked "Got reset-required, but no sample buf yet" := rfl

theorem gsbLoop_readErr (tid : Nat) (sb : Option SampleBuffer) (sc : Nat)
    (e : SymError) (rest : List (Except SymError Packet))
    (h : e ≠ SymError.ResetRequired) :
    gsbLoop tid sb sc (.error e :: rest) = .err e := by
  cases e
  · exact absurd rfl h
  all_goals rfl

theorem gsbLoop_skip (tid : Nat) (sb : Option SampleBuffer) (sc : Nat)
    (p : Packet) (rest : List (Except SymError Packet)) (h : p.track_id ≠ tid) :
    gsbLoop tid sb sc (.ok p :: rest) = gsbLoop tid sb sc rest := by
  simp [gsbLoop, h]

theorem gsbLoop_decode_ok_none (tid sc : Nat) (b : AudioBuf)
    (rest : List (Except SymError Packet))
    (hfit : b.frames * b.spec.channels ≤ b.capacity * b.spec.channels) :
    gsbLoop tid none sc
        (.ok ({ track_id := tid, decode := .ok b } : Packet) :: rest) =
      gsbLoop tid (some (copyStep (SampleBuffer.new b.capacity b.spec) b))
        (sc + b.interleaved.length) rest := by
  have hc : (SampleBuffer.new b.capacity b.spec).copy_interleaved_ref b =
      some (copyStep (SampleBuffer.new b.capacity b.spec) b) :=
    copy_interleaved_ref_of_fits _ _ hfit
  simp [gsbLoop, hc, copyStep]

theorem gsbLoop_decode_ok_some (tid sc : Nat) (s : SampleBuffer) (b : AudioBuf)
    (rest : List (Except SymError Packet))
    (hfit : b.frames * b.spec.channels ≤ s.capacity) :
    gsbLoop tid (some s) sc
        (.ok ({ track_id := tid, decode := .ok b } : Packet) :: rest) =
      gsbLoop tid (some (copyStep s b)) (sc + b.interleaved.length) rest := by
  have hc : s.copy_interleaved_ref b = some (copyStep s b) :=
    copy_interleaved_ref_of_fits _ _ hfit
  simp [gsbLoop, hc, copyStep]

theorem gsbLoop_decode_ok_some_nofit (tid sc : Nat) (s : SampleBuffer) (b : AudioBuf)
    (rest : List (Except SymError Packet))
    (hfit : ¬ b.frames * b.spec.channels ≤ s.capacity) :
    gsbLoop tid (some s) sc
        (.ok ({ track_id := tid, decode := .ok b } : Packet) :: rest) =
      .panicked "assertion failed: self.capacity() >= n_samples" := by
  have hc : s.copy_interleaved_ref b = none := copy_interleaved_ref_nofit _ _ hfit
  simp [gsbLoop, hc]

theorem gsbLoop_decode_reset (tid : Nat) (sb : Option SampleBuffer) (sc : Nat)
    (p : Packet) (rest : List (Except SymError Packet))
    (h1 : p.track_id = tid) (h2 : p.decode = .error SymError.ResetRequired) :
    gsbLoop tid sb sc (.ok p :: rest) =
      .panicked "Reset Error Encountered, something should be done but idk what" := by
  simp [gsbLoop, h1, h2]

theorem gsbLoop_decode_err (tid : Nat) (sb : Option SampleBuffer) (sc : Nat)
    (p : Packet) (rest : List (Except SymError Packet)) (e : SymError)
    (h1 : p.track_id = tid) (h2 : p.decode = .error e)
    (he : e ≠ SymError.ResetRequired) :
    gsbLoop tid sb sc (.ok p :: rest) = .err e := by
  cases e
  · exact absurd rfl he
  all_goals simp [gsbLoop, h1, h2]

theorem mkPackets_nil (tid : Nat) :
    mkPackets tid [] = [.error SymError.ResetRequired] := rfl

theorem mkPackets_cons (tid : Nat) (b : AudioBuf) (rest : List AudioBuf) :
    mkPackets tid (b :: rest) =
      .ok ({ track_id := tid, decode := .ok b } : Packet) :: mkPackets tid rest := rfl

theorem gsbLoop_frames (tid : Nat) (bufs : List AudioBuf) (s : SampleBuffer) (sc : Nat)
    (hfit : ∀ b ∈ bufs, b.frames * b.spec.channels ≤ s.capacity) :
    gsbLoop tid (some s) sc (mkPackets tid bufs) = .ok (bufs.foldl copyStep s) := by
  induction bufs generalizing s sc with
  | nil => exact gsbLoop_reset_some tid s sc []
  | cons b rest ih =>
    have hb : b.frames * b.spec.channels ≤ s.capacity :=
      hfit b (List.mem_cons_self b rest)
    rw [mkPackets_cons, gsbLoop_decode_ok_some tid sc s b _ hb, List.foldl_cons]
    exact ih (copyStep s b) _ (fun b' hb' => by
      rw [copyStep_capacity]
      exact hfit b' (List.mem_cons_of_mem _ hb'))

theorem get_sample_buf_mkSource (tid : Nat) (bufs : List AudioBuf) :
    get_sample_buf (mkSource tid bufs) = gsbLoop tid none 0 (mkPackets tid bufs) := rfl

theorem get_sample_buf_mkSource_cons (tid : Nat) (b1 : AudioBuf) (bufs : List AudioBuf)
    (h1 : b1.frames ≤ b1.capacity)
    (hfit : ∀ b ∈ bufs, b.frames * b.spec.channels ≤ b1.capacity * b1.spec.channels) :
    get_sample_buf (mkSource tid (b1 :: bufs)) =
      .ok { capacity := b1.capacity * b1.spec.channels,
            spec := b1.spec,
            samples := (bufs.getLastD b1).interleaved } := by
  have hb1 : b1.frames * b1.spec.channels ≤ b1.capacity * b1.spec.channels :=
    Nat.mul_le_mul_right _ h1
  rw [get_sample_buf_mkSource, mkPackets_cons,
    gsbLoop_decode_ok_none tid 0 b1 _ hb1,
    gsbLoop_frames tid bufs _ _ (fun b hb => by
      rw [copyStep_capacity]
      exact hfit b hb)]
  have hcap : (bufs.foldl copyStep
      (copyStep (SampleBuffer.new b1.capacity b1.spec) b1)).capacity =
      b1.capacity * b1.spec.channels := foldl_copyStep_capacity _ _
  have hspec : (bufs.foldl copyStep
      (copyStep (SampleBuffer.new b1.capacity b1.spec) b1)).spec = b1.spec :=
    foldl_copyStep_spec _ _
  have hsam : (bufs.foldl copyStep
      (copyStep (SampleBuffer.new b1.capacity b1.spec) b1)).samples =
      (bufs.getLastD b1).interleaved := by
    rw [foldl_copyStep_samples]
    cases h : bufs.getLast? with
    | none => simp [List.getLastD_eq_getLast?, h, copyStep]
    | some c => simp [List.getLastD_eq_getLast?, h]
  congr 1
  calc bufs.foldl copyStep (copyStep (SampleBuffer.new b1.capacity b1.spec) b1)
      = ⟨(bufs.foldl copyStep (copyStep (SampleBuffer.new b1.capacity b1.spec) b1)).capacity,
         (bufs.foldl copyStep (copyStep (SampleBuffer.new b1.capacity b1.spec) b1)).spec,
         (bufs.foldl copyStep (copyStep (SampleBuffer.new b1.capacity b1.spec) b1)).samples⟩ := rfl
    _ = ⟨b1.capacity * b1.spec.channels, b1.spec, (bufs.getLastD b1).interleaved⟩ := by
        rw [hcap, hspec, hsam]

theorem process_read_ok (d : Dir) (es : List (Except IoError DirEntry))
    (h : d.read_dir = .ok es) :
    process d = processEntries [Effect.logInfo ("Processing path: " ++ d.path)] es := by
  simp [process, h]

theorem process_read_err (d : Dir) (e : IoError) (h : d.read_dir = .error e) :
    process d = .ioErr e [Effect.logInfo ("Processing path: " ++ d.path)] := by
  simp [process, h]

theorem processEntries_nil (trace : List Effect) :
    processEntries trace [] = .ok trace := rfl

theorem processEntries_entryErr (trace : List Effect) (e : IoError)
    (rest : List (Except IoError DirEntry)) :
    processEntries trace (.error e :: rest) = .ioErr e trace := rfl

theorem processEntries_ftErr (trace : List Effect) (entry : DirEntry) (e : IoError)
    (rest : List (Except IoError DirEntry)) (h : entry.file_type = .error e) :
    processEntries trace (.ok entry :: rest) = processEntries trace rest := by
  simp [processEntries, h]

theorem processEntries_notFile (trace : List Effect) (entry : DirEntry) (ft : FileType)
    (rest : List (Except IoError DirEntry)) (h : entry.file_type = .ok ft)
    (hf : ft.is_file = false) :
    processEntries trace (.ok entry :: rest) = processEntries trace rest := by
  simp [processEntries, h, hf]

theorem processEntries_openErr (trace : List Effect) (entry : DirEntry) (ft : FileType)
    (e : IoError) (rest : List (Except IoError DirEntry))
    (h : entry.file_type = .ok ft) (hf : ft.is_file = true)
    (ho : entry.open_file = .error e) :
    processEntries trace (.ok entry :: rest) =
      .ioErr e (trace ++
        [.logInfo ("Found Regular file: " ++ entry.path), .openFile entry.path]) := by
  simp [processEntries, h, hf, ho]

theorem processEntries_decodeOk (trace : List Effect) (entry : DirEntry) (ft : FileType)
    (f : MediaSource) (buf : SampleBuffer) (rest : List (Except IoError DirEntry))
    (h : entry.file_type = .ok ft) (hf : ft.is_file = true)
    (ho : entry.open_file = .ok f) (hg : get_sample_buf f = .ok buf) :
    processEntries trace (.ok entry :: rest) =
      processEntries (trace ++
        [.logInfo ("Found Regular file: " ++ entry.path), .openFile entry.path,
         .logInfo ("Got sample buffer with " ++ toString buf.samples.length ++ " samples"),
         .logInfo ("Successfully processed file: " ++ entry.path)]) rest := by
  simp [processEntries, h, hf, ho, hg]

theorem processEntries_decodeErr (trace : List Effect) (entry : DirEntry) (ft : FileType)
    (f : MediaSource) (e : SymError) (rest : List (Except IoError DirEntry))
    (h : entry.file_type = .ok ft) (hf : ft.is_file = true)
    (ho : entry.open_file = .ok f) (hg : get_sample_buf f = .err e) :
    processEntries trace (.ok entry :: rest) =
      processEntries (trace ++
        [.logInfo ("Found Regular file: " ++ entry.path), .openFile entry.path,
         .logWarn ("Could not process file: " ++ entry.path ++ " due to audio error")])
        rest := by
  simp [processEntries, h, hf, ho, hg]

theorem processEntries_decodePanic (trace : List Effect) (entry : DirEntry) (ft : FileType)
    (f : MediaSource) (msg : String) (rest : List (Except IoError DirEntry))
    (h : entry.file_type = .ok ft) (hf : ft.is_file = true)
    (ho : entry.open_file = .ok f) (hg : get_sample_buf f = .panicked msg) :
    processEntries trace (.ok entry :: rest) =
      .panicked msg (trace ++
        [.logInfo ("Found Regular file: " ++ entry.path), .openFile entry.path]) := by
  simp [processEntries, h, hf, ho, hg]

theorem processEntries_benign (es : List (Except IoError DirEntry)) (trace : List Effect)
    (hben : ∀ r ∈ es, entryBenign r) :
    ∃ tr, processEntries trace es = .ok tr ∧ trace <+: tr ∧
      ∀ entry ft f e, (.ok entry) ∈ es → entry.file_type = .ok ft →
        ft.is_file = true → entry.open_file = .ok f → get_sample_buf f = .err e →
        Effect.logWarn ("Could not process file: " ++ entry.path ++
          " due to audio error") ∈ tr := by
  induction es generalizing trace with
  | nil =>
    refine ⟨trace, processEntries_nil trace, List.prefix_refl trace, ?_⟩
    intro entry ft f e hmem
    exact absurd hmem (List.not_mem_nil _)
  | cons r rest ih =>
    obtain ⟨entry, rfl, hfb⟩ := hben r (List.mem_cons_self r rest)
    have hrest : ∀ r ∈ rest, entryBenign r :=
      fun r hr => hben r (List.mem_cons_of_mem _ hr)
    cases hft : entry.file_type with
    | error e0 =>
      obtain ⟨tr, h1, h2, h3⟩ := ih trace hrest
      refine ⟨tr, by rw [processEntries_ftErr trace entry e0 rest hft]; exact h1, h2, ?_⟩
      intro entry' ft f e hmem hft' hisf hopen hgsb
      rcases List.mem_cons.mp hmem with heq | hmem'
      · obtain rfl : entry' = entry := by injection heq
        rw [hft] at hft'
        exact Except.noConfusion hft'
      · exact h3 entry' ft f e hmem' hft' hisf hopen hgsb
    | ok ft0 =>
      cases hf : ft0.is_file with
      | false =>
        obtain ⟨tr, h1, h2, h3⟩ := ih trace hrest
        refine ⟨tr,
          by rw [processEntries_notFile trace entry ft0 rest hft hf]; exact h1, h2, ?_⟩
        intro entry' ft f e hmem hft' hisf hopen hgsb
        rcases List.mem_cons.mp hmem with heq | hmem'
        · obtain rfl : entry' = entry := by injection heq
          rw [hft] at hft'
          obtain rfl : ft0 = ft := by injection hft'
          rw [hf] at hisf
          exact Bool.noConfusion hisf
        · exact h3 entry' ft f e hmem' hft' hisf hopen hgsb
      | true =>
        obtain ⟨f0, hopen0, hcase⟩ := hfb ft0 hft hf
        rcases hcase with ⟨buf, hgsb0⟩ | ⟨e0, hgsb0⟩
        · obtain ⟨tr, h1, h2, h3⟩ := ih (trace ++
            [.logInfo ("Found Regular file: " ++ entry.path), .openFile entry.path,
             .logInfo ("Got sample buffer with " ++ toString buf.samples.length ++
               " samples"),
             .logInfo ("Successfully processed file: " ++ entry.path)]) hrest
          refine ⟨tr,
            by rw [processEntries_decodeOk trace entry ft0 f0 buf rest hft hf hopen0 hgsb0]
               exact h1,
            (List.prefix_append trace _).trans h2, ?_⟩
          intro entry' ft f e hmem hft' hisf hopen hgsb
          rcases List.mem_cons.mp hmem with heq | hmem'
          · obtain rfl : entry' = entry := by injection heq
            rw [hopen0] at hopen
            obtain rfl : f0 = f := by injection hopen
            rw [hgsb0] at hgsb
            exact GsbOutcome.noConfusion hgsb
          · exact h3 entry' ft f e hmem' hft' hisf hopen hgsb
        · obtain ⟨tr, h1, h2, h3⟩ := ih (trace ++
            [.logInfo ("Found Regular file: " ++ entry.path), .openFile entry.path,
             .logWarn ("Could not process file: " ++ entry.path ++
               " due to audio error")]) hrest
          refine ⟨tr,
            by rw [processEntries_decodeErr trace entry ft0 f0 e0 rest hft hf hopen0 hgsb0]
               exact h1,
            (List.prefix_append trace _).trans h2, ?_⟩
          intro entry' ft f e hmem hft' hisf hopen hgsb
          rcases List.mem_cons.mp hmem with heq | hmem'
          · obtain rfl : entry' = entry := by injection heq
            exact h2.subset (by simp)
          · exact h3 entry' ft f e hmem' hft' hisf hopen hgsb

theorem writesOf_append (a b : List Effect) :
    writesOf (a ++ b) = writesOf a ++ writesOf b :=
  List.filterMap_append a b _

theorem writesOf_processEntries (es : List (Except IoError DirEntry))
    (trace : List Effect) (h : writesOf trace = []) :
    writesOf (processEntries trace es).trace = [] := by
  induction es generalizing trace with
  | nil => rw [processEntries_nil]; exact h
  | cons r rest ih =>
    cases r with
    | error e => rw [processEntries_entryErr]; exact h
    | ok entry =>
      cases hft : entry.file_type with
      | error e => rw [processEntries_ftErr trace entry e rest hft]; exact ih trace h
      | ok ft =>
        cases hf : ft.is_file with
        | false =>
          rw [processEntries_notFile trace entry ft rest hft hf]
          exact ih trace h
        | true =>
          cases ho : entry.open_file with
          | error e =>
            rw [processEntries_openErr trace entry ft e rest hft hf ho]
            show writesOf (trace ++ _) = []
            rw [writesOf_append, h]
            rfl
          | ok f =>
            cases hg : get_sample_buf f with
            | ok buf =>
              rw [processEntries_decodeOk trace entry ft f buf rest hft hf ho hg]
              refine ih _ ?_
              rw [writesOf_append, h]
              rfl
            | err e =>
              rw [processEntries_decodeErr trace entry ft f e rest hft hf ho hg]
              refine ih _ ?_
              rw [writesOf_append, h]
              rfl
            | panicked msg =>
              rw [processEntries_decodePanic trace entry ft f msg rest hft hf ho hg]
              show writesOf (trace ++ _) = []
              rw [writesOf_append, h]
              rfl
            | ranOut =>
              have : processEntries trace (.ok entry :: rest) =
                  .ranOut (trace ++
                    [.logInfo ("Found Regular file: " ++ entry.path),
                     .openFile entry.path]) := by
                simp [processEntries, hft, hf, ho, hg]
              rw [this]
              show writesOf (trace ++ _) = []
              rw [writesOf_append, h]
              rfl

example : get_sample_buf (mkSource 0 [bufA, bufB]) =
    .ok { capacity := 4, spec := specMono, samples := [3, 4] } := by decide

example : get_sample_buf goodSource =
    .ok { capacity := 4, spec := specMono, samples := [1, 2] } := by decide

example : get_sample_buf (mkSource 0 [bufStereo, bufMono3]) =
    .ok { capacity := 8, spec := specStereo, samples := [7, 8, 9] } := by decide

example : get_sample_buf (mkSource 0 [bufStereo]) =
    .ok { capacity := 8, spec := specStereo, samples := [1, 5, 2, 6] } := by decide

example : get_sample_buf decodeErrSource = .err SymError.DecodeError ∧
    get_sample_buf emptyResetSource =
      .panicked "Got reset-required, but no sample buf yet" := by decide

example : process dirOpenErr =
    .ioErr { code := 13 }
      [.logInfo "Processing path: d",
       .logInfo "Found Regular file: a.mp3",
       .openFile "a.mp3"] := by decide

/-- C1, counterexample: the claim says a per-file open error is logged and the
batch continues, the only fatal condition being a directory-listing error.
In `dirOpenErr` the listing succeeds and the first regular file fails to open
(error code 13): `process` aborts immediately with that I/O error
(`File::open(entry.path())?` at processor.rs line 142), logs no warning for
the file, and never opens the second (perfectly good) file. -/
theorem C1_counterexample :
    process dirOpenErr =
      .ioErr { code := 13 }
        [.logInfo "Processing path: d",
         .logInfo "Found Regular file: a.mp3",
         .openFile "a.mp3"] ∧
    (process dirOpenErr).trace.filter Effect.isWarn = [] ∧
    Effect.openFile "b.mp3" ∉ (process dirOpenErr).trace ∧
    dirOpenErr.read_dir = .ok [.ok entryOpenErr, .ok entryGood] := by
  refine ⟨by decide, by decide, by decide, rfl⟩

/-- C1 (amended): a per-file DECODE error returned by `get_sample_buf` is
logged (a warning naming the file's label) and processing continues with the
next entry; the batch then completes with `Ok`.  (A file OPEN error, by
contrast, aborts the batch with that I/O error — see the counterexample — and
probe/track/decoder-selection failures panic.)  Formally: if the listing
succeeds and every entry either has a failing file-type query, is not a
regular file, or opens and decodes to a normal outcome (`ok` or `err`), then
`process` returns `Ok`, and every entry whose decode errored has a warning
naming its path in the trace. -/
theorem C1_amended (d : Dir) (es : List (Except IoError DirEntry))
    (hread : d.read_dir = .ok es) (hben : ∀ r ∈ es, entryBenign r) :
    ∃ tr, process d = .ok tr ∧
      ∀ entry ft f e, (.ok entry) ∈ es → entry.file_type = .ok ft →
        ft.is_file = true → entry.open_file = .ok f → get_sample_buf f = .err e →
        Effect.logWarn ("Could not process file: " ++ entry.path ++
          " due to audio error") ∈ tr := by
  obtain ⟨tr, h1, _, h3⟩ :=
    processEntries_benign es [Effect.logInfo ("Processing path: " ++ d.path)] hben
  exact ⟨tr, by rw [process_read_ok d es hread]; exact h1, h3⟩

/-- C1, witness: a directory with one decode-failing file is processed to
completion: `process` returns `Ok` and the trace holds the warning. -/
theorem C1_witness :
    ∃ tr, process dirDecodeErr = .ok tr ∧
      Effect.logWarn ("Could not process file: " ++ "c.mp3" ++
        " due to audio error") ∈ tr := by
  obtain ⟨tr, h1, h3⟩ := C1_amended dirDecodeErr [.ok entryDecodeErr] rfl
    (by
      intro r hr
      rw [List.mem_singleton] at hr
      subst hr
      exact ⟨entryDecodeErr, rfl, fun ft hft hisf =>
        ⟨decodeErrSource, rfl, Or.inr ⟨SymError.DecodeError, rfl⟩⟩⟩)
  exact ⟨tr, h1, h3 entryDecodeErr { is_file := true } decodeErrSource
    SymError.DecodeError (List.mem_singleton_self _) rfl rfl rfl rfl⟩

/-- C2, counterexample: the claim says the returned buffer is the ordered
concatenation of ALL decoded frames' interleaved samples.  Decoding two mono
frames (samples 1,2 then 3,4), the code returns only the LAST frame's samples
[3,4] — `copy_interleaved_ref` overwrites rather than appends — not the
concatenation [1,2,3,4]. -/
theorem C2_counterexample :
    get_sample_buf (mkSource 0 [bufA, bufB]) =
      .ok { capacity := 4, spec := specMono, samples := [3, 4] } ∧
    ([3, 4] : List Int) ≠ bufA.interleaved ++ bufB.interleaved := by
  refine ⟨by decide, by decide⟩

/-- C2 (amended): each subsequent frame is copied into the sample buffer by an
interleaving copy that OVERWRITES the previously written samples, so the
buffer returned by `get_sample_buf` contains exactly the interleaved samples
of the last successfully decoded frame (format and capacity still come from
the first frame). -/
theorem C2_amended (tid : Nat) (b1 : AudioBuf) (bufs : List AudioBuf)
    (h1 : b1.frames ≤ b1.capacity)
    (hfit : ∀ b ∈ bufs, b.frames * b.spec.channels ≤ b1.capacity * b1.spec.channels) :
    get_sample_buf (mkSource tid (b1 :: bufs)) =
      .ok { capacity := b1.capacity * b1.spec.channels,
            spec := b1.spec,
            samples := (bufs.getLastD b1).interleaved } :=
  get_sample_buf_mkSource_cons tid b1 bufs h1 hfit

/-- C2, witness: instantiating the amended theorem on the two concrete mono
frames. -/
theorem C2_witness :
    bufA.frames ≤ bufA.capacity ∧
    get_sample_buf (mkSource 0 [bufA, bufB]) =
      .ok { capacity := bufA.capacity * bufA.spec.channels,
            spec := bufA.spec,
            samples := (([bufB]).getLastD bufA).interleaved } :=
  ⟨by decide, C2_amended 0 bufA [bufB] (by decide) (by decide)⟩

/-- C3, counterexample: the claim says a reset with zero frames decoded yields
the per-file, non-fatal fault `PrematureReset` — not a crash and not a batch
abort.  On a source that resets before any frame, the code PANICS
(processor.rs line 68), and in a directory that panic aborts the whole batch:
the following good file is never opened. -/
theorem C3_counterexample :
    get_sample_buf emptyResetSource =
      .panicked "Got reset-required, but no sample buf yet" ∧
    process dirReset =
      .panicked "Got reset-required, but no sample buf yet"
        [.logInfo "Processing path: d",
         .logInfo "Found Regular file: r.mp3",
         .openFile "r.mp3"] ∧
    Effect.openFile "b.mp3" ∉ (process dirReset).trace := by
  refine ⟨by decide, by decide, by decide⟩

/-- C3 (amended): a `ResetRequired` from packet reading is treated as
end-of-input if and only if at least one frame was decoded: after one or more
frames `get_sample_buf` returns `Ok` with the (last-frame) buffer; with zero
frames decoded it panics — there is no `PrematureReset` error value and the
panic aborts the run. -/
theorem C3_amended (tid : Nat) (b1 : AudioBuf) (bufs : List AudioBuf)
    (h1 : b1.frames ≤ b1.capacity)
    (hfit : ∀ b ∈ bufs, b.frames * b.spec.channels ≤ b1.capacity * b1.spec.channels) :
    get_sample_buf (mkSource tid []) =
      .panicked "Got reset-required, but no sample buf yet" ∧
    ∃ buf, get_sample_buf (mkSource tid (b1 :: bufs)) = .ok buf :=
  ⟨rfl, ⟨_, get_sample_buf_mkSource_cons tid b1 bufs h1 hfit⟩⟩

/-- C3, witness: both branches at concrete inputs — zero frames panics, one
frame then reset returns Ok. -/
theorem C3_witness :
    get_sample_buf (mkSource 0 []) =
      .panicked "Got reset-required, but no sample buf yet" ∧
    ∃ buf, get_sample_buf (mkSource 0 [bufA]) = .ok buf :=
  C3_amended 0 bufA [] (by decide) (by decide)

/-- C4: the claim (and the doc comment of `process` itself, processor.rs lines
129-131: errors for unrecognized/unsupported audio formats "will be logged and
processing will continue") says an unprobeable container, an unmatched
decoder, or a missing default track is a per-file, non-fatal error.  The code
instead calls `unwrap` on all three results (processor.rs lines 37-50) and
panics, and the panic terminates the whole batch: with an unprobeable first
file, the second good file is never processed. -/
theorem C4_theorem :
    get_sample_buf probeErrSource = .panicked "called unwrap on probe result" ∧
    get_sample_buf noTrackSource = .panicked "called unwrap on default_track" ∧
    get_sample_buf noCodecSource = .panicked "called unwrap on decoder make" ∧
    process dirProbeErr =
      .panicked "called unwrap on probe result"
        [.logInfo "Processing path: d",
         .logInfo "Found Regular file: p.mp3",
         .openFile "p.mp3"] ∧
    Effect.openFile "b.mp3" ∉ (process dirProbeErr).trace := by
  refine ⟨rfl, rfl, rfl, by decide, by decide⟩

/-- C5: the claim (and the doc comment of `process`, processor.rs lines
124-126: inputs "will be consolidated into a single resulting m4b file that is
written to the same directory") says a successful run writes exactly one
consolidated container file.  The code contains no consolidation or mux stage
at all: for EVERY directory, the effects of `process` contain no file write
whatsoever. -/
theorem C5_theorem (d : Dir) : writesOf (process d).trace = [] := by
  cases h : d.read_dir with
  | error e => rw [process_read_err d e h]; rfl
  | ok es => rw [process_read_ok d es h]; exact writesOf_processEntries es _ rfl

/-- C6, counterexample: the claim says a later frame with an incompatible
format makes decoding fail with `DecodeFault`.  Feeding a stereo 44.1 kHz
first frame and then a mono 22.05 kHz frame, the code succeeds: the second
frame's samples are copied into the buffer under its own mono layout while
the buffer still carries the stereo descriptor — silent reinterpretation, no
error. -/
theorem C6_counterexample :
    get_sample_buf (mkSource 0 [bufStereo, bufMono3]) =
      .ok { capacity := 8, spec := specStereo, samples := [7, 8, 9] } ∧
    bufMono3.spec ≠ bufStereo.spec := by
  refine ⟨by decide, by decide⟩

/-- C6 (amended): the format descriptor is fixed by the first decoded frame
and never re-checked; a later frame whose format differs is silently copied
into the buffer using its own channel count whenever its sample count fits
the buffer's capacity, and when it does not fit the copy's capacity assertion
panics — in neither case is a `DecodeFault` error returned. -/
theorem C6_amended (tid : Nat) (b1 b2 : AudioBuf)
    (h1 : b1.frames ≤ b1.capacity) (hne : b2.spec ≠ b1.spec) :
    (b2.frames * b2.spec.channels ≤ b1.capacity * b1.spec.channels →
      get_sample_buf (mkSource tid [b1, b2]) =
        .ok { capacity := b1.capacity * b1.spec.channels,
              spec := b1.spec,
              samples := b2.interleaved }) ∧
    (¬ b2.frames * b2.spec.channels ≤ b1.capacity * b1.spec.channels →
      get_sample_buf (mkSource tid [b1, b2]) =
        .panicked "assertion failed: self.capacity() >= n_samples") := by
  constructor
  · intro hfit
    have h := get_sample_buf_mkSource_cons tid b1 [b2] h1
      (by intro b hb; rw [List.mem_singleton] at hb; subst hb; exact hfit)
    simpa using h
  · intro hnofit
    rw [get_sample_buf_mkSource, mkPackets_cons,
      gsbLoop_decode_ok_none tid 0 b1 _ (Nat.mul_le_mul_right _ h1), mkPackets_cons]
    exact gsbLoop_decode_ok_some_nofit tid _ _ b2 _ hnofit

/-- C6, witness: the fitting branch at the concrete stereo-then-mono pair. -/
theorem C6_witness :
    bufMono3.spec ≠ bufStereo.spec ∧
    get_sample_buf (mkSource 0 [bufStereo, bufMono3]) =
      .ok { capacity := bufStereo.capacity * bufStereo.spec.channels,
            spec := bufStereo.spec,
            samples := bufMono3.interleaved } :=
  ⟨by decide, (C6_amended 0 bufStereo bufMono3 (by decide) (by decide)).1 (by decide)⟩

/-- C7: decoding is deterministic — `get_sample_buf` is a pure function of
the modelled byte-stream content (the probe outcome, track table and packet
events derived from the same bytes), so two runs over the same content yield
bit-identical results. -/
theorem C7_theorem (s1 s2 : MediaSource) (h : s1 = s2) :
    get_sample_buf s1 = get_sample_buf s2 := by rw [h]

/-- C7, witness: two runs over the good source agree. -/
theorem C7_witness : get_sample_buf goodSource = get_sample_buf goodSource :=
  C7_theorem goodSource goodSource rfl

/-- C8: a packet whose track id differs from the selected track's id is
silently discarded — the run's outcome with the foreign packet equals the
outcome without it, for EVERY decode payload the packet might carry (so the
packet is never decoded and contributes no samples). -/
theorem C8_theorem (tid : Nat) (sb : Option SampleBuffer) (sc : Nat) (p : Packet)
    (rest : List (Except SymError Packet)) (h : p.track_id ≠ tid) :
    gsbLoop tid sb sc (.ok p :: rest) = gsbLoop tid sb sc rest :=
  gsbLoop_skip tid sb sc p rest h

/-- C8, witness: a foreign-track packet whose decode outcome would PANIC if
it were ever decoded is skipped without effect. -/
theorem C8_witness :
    gsbLoop 0 none 0
        [.ok ({ track_id := 1, decode := .error SymError.ResetRequired } : Packet),
         .error SymError.ResetRequired] =
      gsbLoop 0 none 0 [.error SymError.ResetRequired] :=
  C8_theorem 0 none 0 { track_id := 1, decode := .error SymError.ResetRequired }
    [.error SymError.ResetRequired] (by decide)

/-- C9: an entry whose `file_type()` query errors is silently skipped:
processing continues with the remaining entries, the trace is unchanged (so
nothing is logged and no `openFile` effect occurs for it), and the batch is
not aborted. -/
theorem C9_theorem (trace : List Effect) (entry : DirEntry) (e : IoError)
    (rest : List (Except IoError DirEntry)) (h : entry.file_type = .error e) :
    processEntries trace (.ok entry :: rest) = processEntries trace rest :=
  processEntries_ftErr trace entry e rest h

/-- C9, witness: the concrete entry with a failing file-type query is
skipped. -/
theorem C9_witness :
    processEntries [] [.ok entryFtErr] = processEntries ([] : List Effect) [] :=
  C9_theorem [] entryFtErr { code := 5 } [] rfl

/-- C10: when the DECODER (not packet reading) reports `ResetRequired`, the
code panics unconditionally (processor.rs lines 114-116) — for every prior
state `sb`, including one holding already-decoded frames — rather than
returning a fault or treating it as end-of-input. -/
theorem C10_theorem (tid : Nat) (sb : Option SampleBuffer) (sc : Nat) (p : Packet)
    (rest : List (Except SymError Packet))
    (h1 : p.track_id = tid) (h2 : p.decode = .error SymError.ResetRequired) :
    gsbLoop tid sb sc (.ok p :: rest) =
      .panicked "Reset Error Encountered, something should be done but idk what" :=
  gsbLoop_decode_reset tid sb sc p rest h1 h2

/-- C10, witness: even with a buffer already holding decoded samples, a
decoder-level reset panics. -/
theorem C10_witness :
    gsbLoop 0 (some { capacity := 4, spec := specMono, samples := [1, 2] }) 2
        [.ok ({ track_id := 0, decode := .error SymError.ResetRequired } : Packet)] =
      .panicked "Reset Error Encountered, something should be done but idk what" :=
  C10_theorem 0 (some { capacity := 4, spec := specMono, samples := [1, 2] }) 2
    { track_id := 0, decode := .error SymError.ResetRequired } [] rfl rfl

end Consolidator
